import Mathlib

/-!
Verification of the S3-vectors ingestion/retrieval pipeline
(`project-1/ingestion/ingest_to_s3_vectors.py`,
`project-1/ingestion/retrieve_from_s3_vectors.py`, `project-1/ingestion/config.py`).

The Python classes are embedded shallowly: chunks and documents become
structures whose optional JSON fields are `Option`s (`dict.get` with a default
becomes `Option.getD`); the embedding provider is an abstract function
`String → E`; remote API calls (`put_vectors`, `query_vectors`,
`describe_vector_bucket`, ...) are represented by the request records the code
builds, with an oracle deciding which remote calls fail; a Python function that
may raise is embedded as an `Except`-valued function.
-/

namespace S3Ingestion

/-- A knowledge chunk as read from JSON.  Fields accessed with `chunk.get`
in `parse_chunk` are `Option`s; `keywords` defaults to `[]` at access time
(`chunk.get('keywords', [])`), modelled here as a plain list. -/
structure Chunk where
  chunk_id : Option String
  entity_type : Option String
  text : Option String
  keywords : List String
  column_name : Option String
deriving Repr, DecidableEq

/-- The metadata dict built by `parse_chunk`: `table_name`, `entity_type`,
the comma-joined `keywords`, and `column_name` only when the chunk has one. -/
structure Metadata where
  table_name : String
  entity_type : String
  keywords : String
  column_name : Option String
deriving Repr, DecidableEq

/-- Python `','.join(xs)`. -/
def joinComma : List String → String
  | [] => ""
  | [x] => x
  | x :: y :: xs => x ++ "," ++ joinComma (y :: xs)

/-- `S3VectorIngestion.parse_chunk`: returns
`(chunk_id, text, metadata, memory_type)` where missing `chunk_id` and
`entity_type` default to `"unknown"`, missing `text` to `""`, and
`memory_type = 'procedural' if entity_type == 'query_example' else 'semantic'`. -/
def parse_chunk (chunk : Chunk) (table_name : String) :
    String × String × Metadata × String :=
  let chunk_id := chunk.chunk_id.getD "unknown"
  let entity_type := chunk.entity_type.getD "unknown"
  let text := chunk.text.getD ""
  let memory_type := if entity_type = "query_example" then "procedural" else "semantic"
  let metadata : Metadata :=
    ⟨table_name, entity_type, joinComma chunk.keywords, chunk.column_name⟩
  (chunk_id, text, metadata, memory_type)

/-- The vector dict built in `process_file`:
`{'key': chunk_id, 'data': {'float32': embedding}, 'metadata': metadata}`.
The embedding payload is abstract (`E`), since its float values never
influence control flow in this pipeline. -/
structure VectorRecord (E : Type) where
  key : String
  data : E
  metadata : Metadata
deriving Repr, DecidableEq

/-- A knowledge document as read from one JSON file: `data.get('table',
'unknown')` and `data.get('chunks', [])` (a missing `chunks` key is the empty
list, folded into the plain list field). -/
structure Document where
  table : Option String
  chunks : List Chunk
deriving Repr, DecidableEq

/-- One iteration of the `for chunk in chunks` loop of `process_file`:
parse the chunk, embed its text, and append the vector to the semantic or the
procedural list according to `memory_type`. -/
def process_step {E : Type} (emb : String → E) (table_name : String)
    (acc : List (VectorRecord E) × List (VectorRecord E)) (chunk : Chunk) :
    List (VectorRecord E) × List (VectorRecord E) :=
  match parse_chunk chunk table_name with
  | (chunk_id, text, metadata, memory_type) =>
    let vector : VectorRecord E := ⟨chunk_id, emb text, metadata⟩
    if memory_type = "semantic" then (acc.1 ++ [vector], acc.2)
    else (acc.1, acc.2 ++ [vector])

/-- `S3VectorIngestion.process_file`: returns
`(semantic_vectors, procedural_vectors)` accumulated over the file's chunks. -/
def process_file {E : Type} (emb : String → E) (doc : Document) :
    List (VectorRecord E) × List (VectorRecord E) :=
  doc.chunks.foldl (process_step emb (doc.table.getD "unknown")) ([], [])

/-- The `for json_file in json_files` loop of `ingest_all`: extend
`all_semantic_vectors` and `all_procedural_vectors` with each file's output. -/
def ingest_step {E : Type} (emb : String → E)
    (acc : List (VectorRecord E) × List (VectorRecord E)) (doc : Document) :
    List (VectorRecord E) × List (VectorRecord E) :=
  match process_file emb doc with
  | (semantic_vectors, procedural_vectors) =>
    (acc.1 ++ semantic_vectors, acc.2 ++ procedural_vectors)

/-- The accumulated `(all_semantic_vectors, all_procedural_vectors)` of
`ingest_all`. -/
def collect_vectors {E : Type} (emb : String → E) (docs : List Document) :
    List (VectorRecord E) × List (VectorRecord E) :=
  docs.foldl (ingest_step emb) ([], [])

/-- A `put_vectors` request as issued by `upload_vectors`. -/
structure PutCall (E : Type) where
  vectorBucketName : String
  indexName : String
  vectors : List (VectorRecord E)
deriving Repr, DecidableEq

/-- Python `range(0, stop, step)` for `step > 0`: the starts
`0, step, 2*step, ...` strictly below `stop`. -/
def rangeStep (stop step : Nat) : List Nat :=
  (List.range ((stop + step - 1) / step)).map (fun k => k * step)

/-- `batch_size = 100` in `upload_vectors`. -/
def batch_size : Nat := 100

/-- The batches formed by `for i in range(0, len(vectors), batch_size):
batch = vectors[i:i + batch_size]`. -/
def makeBatches {E : Type} (vectors : List (VectorRecord E)) :
    List (List (VectorRecord E)) :=
  (rangeStep vectors.length batch_size).map
    (fun i => (vectors.drop i).take batch_size)

/-- One iteration of the batch loop of `upload_vectors`: the `put_vectors`
call is issued for the batch; on success (`fails` is false for this batch
position) `total_uploaded` grows by the batch size, on failure the exception
is caught and logged and the loop continues. -/
def upload_step {E : Type} (bucket index_name : String) (fails : Nat → Bool)
    (acc : List (PutCall E) × Nat) (kb : Nat × List (VectorRecord E)) :
    List (PutCall E) × Nat :=
  let call : PutCall E := ⟨bucket, index_name, kb.2⟩
  if fails kb.1 then (acc.1 ++ [call], acc.2)
  else (acc.1 ++ [call], acc.2 + kb.2.length)

/-- `S3VectorIngestion.upload_vectors`, observed through its remote effects:
the list of `put_vectors` requests issued (in order) and the final
`total_uploaded` count that is logged.  `fails k` says whether the remote
call for the `k`-th batch raises.  `if not vectors: return` is the first
branch. -/
def upload_vectors {E : Type} (fails : Nat → Bool)
    (vectors : List (VectorRecord E)) (bucket index_name : String) :
    List (PutCall E) × Nat :=
  if vectors.isEmpty then ([], 0)
  else (makeBatches vectors).enum.foldl (upload_step bucket index_name fails) ([], 0)

/-- The bucket names held by `S3VectorIngestion`. -/
structure IngestionConfig where
  semantic_bucket : String
  procedural_bucket : String
  episodic_bucket : String
deriving Repr, DecidableEq

/-- The dict returned by `ingest_all`. -/
structure IngestResult where
  semantic_count : Nat
  procedural_count : Nat
  semantic_bucket : String
  procedural_bucket : String
deriving Repr, DecidableEq

/-- `S3VectorIngestion.ingest_all` on an already-loaded list of documents:
accumulate both partitions, upload each to its bucket/index, and return the
result dict.  Also returns the `put_vectors` calls issued (semantic upload
first, then procedural).  `sem_fails`/`proc_fails` are the batch-failure
oracles of the two `upload_vectors` runs. -/
def ingest_all {E : Type} (cfg : IngestionConfig) (emb : String → E)
    (sem_fails proc_fails : Nat → Bool) (docs : List Document) :
    IngestResult × List (PutCall E) :=
  match collect_vectors emb docs with
  | (all_semantic_vectors, all_procedural_vectors) =>
    let sem_upload :=
      upload_vectors sem_fails all_semantic_vectors cfg.semantic_bucket "semantic_index"
    let proc_upload :=
      upload_vectors proc_fails all_procedural_vectors cfg.procedural_bucket "procedural_index"
    (⟨all_semantic_vectors.length, all_procedural_vectors.length,
        cfg.semantic_bucket, cfg.procedural_bucket⟩,
      sem_upload.1 ++ proc_upload.1)

/-- Whether a filename matches the glob pattern `semantic_*.json` used in
`load_json_files`: a `semantic_` prefix followed by anything followed by a
`.json` suffix (a directory-entry name contains no path separator, so the
pattern is exactly prefix-and-suffix). -/
def fileNameMatch (name : String) : Bool :=
  "semantic_".data.isPrefixOf name.data && ".json".data.isSuffixOf name.data

/-- The modelled data directory: `none` when the directory does not exist,
otherwise the directory entries, each a filename together with the document
parsed from that file. -/
def globSemanticJson (dir : Option (List (String × Document))) :
    List (String × Document) :=
  match dir with
  | none => []
  | some entries => entries.filter (fun e => fileNameMatch e.1)

/-- `S3VectorIngestion.load_json_files`:
`list(self.data_path.glob('semantic_*.json'))`.  `pathlib.Path.glob` checks
`is_dir` on the base path first and returns an empty iterator when the
directory does not exist, so this call never raises; the `Except` result type
records that a raised exception would propagate, and the body shows none is
raised. -/
def load_json_files (dir : Option (List (String × Document))) :
    Except String (List (String × Document)) :=
  Except.ok (globSemanticJson dir)

/-- `ingest_all` from the directory downward: load the matching files, then
run the in-memory pipeline on the loaded documents. -/
def ingest_pipeline {E : Type} (cfg : IngestionConfig) (emb : String → E)
    (sem_fails proc_fails : Nat → Bool)
    (dir : Option (List (String × Document))) :
    Except String (IngestResult × List (PutCall E)) :=
  match load_json_files dir with
  | Except.error e => Except.error e
  | Except.ok json_files =>
    Except.ok (ingest_all cfg emb sem_fails proc_fails (json_files.map (fun e => e.2)))

/-- The bucket names held by `S3VectorRetriever`. -/
structure RetrieverConfig where
  semantic_bucket : String
  procedural_bucket : String
  episodic_bucket : String
deriving Repr, DecidableEq

/-- A `query_vectors` request as issued by the retriever, with the keyword
arguments the source passes. -/
structure QueryCall (E : Type) where
  vectorBucketName : String
  indexName : String
  queryVector : E
  topK : Nat
  filter : Option (String × String)
  returnDistance : Bool
  returnMetadata : Bool
deriving Repr, DecidableEq

/-- The `query_vectors` request built by `search_semantic`. -/
def semantic_call {E : Type} (cfg : RetrieverConfig) (query_embedding : E)
    (top_k : Nat) : QueryCall E :=
  ⟨cfg.semantic_bucket, "semantic_index", query_embedding, top_k, none, true, true⟩

/-- The `query_vectors` request built by `search_procedural`. -/
def procedural_call {E : Type} (cfg : RetrieverConfig) (query_embedding : E)
    (top_k : Nat) : QueryCall E :=
  ⟨cfg.procedural_bucket, "procedural_index", query_embedding, top_k, none, true, true⟩

/-- The `query_vectors` request built by `search_with_filter`:
`filter={'table_name': table_name}` against the semantic bucket's
`semantic_index`. -/
def filtered_call {E : Type} (cfg : RetrieverConfig) (query_embedding : E)
    (table_name : String) (top_k : Nat) : QueryCall E :=
  ⟨cfg.semantic_bucket, "semantic_index", query_embedding, top_k,
    some ("table_name", table_name), true, true⟩

/-- The `try/except` body shared by all three search methods: issue the
`query_vectors` call; on success return `response.get('vectors', [])`, on any
exception log it and return `[]`. -/
def query_and_catch {E R : Type} (store : QueryCall E → Except String (List R))
    (call : QueryCall E) : List R :=
  match store call with
  | Except.ok response => response
  | Except.error _ => []

/-- `S3VectorRetriever.search_semantic`.  `embed` is
`self.embeddings.embed_query`, which is called OUTSIDE the `try` block, so
its failure propagates; `top_k = none` models the caller not supplying
`top_k`, whose Python default is `5`.  Returns the result together with the
`query_vectors` calls issued. -/
def search_semantic {E R : Type} (embed : String → Except String E)
    (store : QueryCall E → Except String (List R)) (cfg : RetrieverConfig)
    (query : String) (top_k : Option Nat) :
    Except String (List R) × List (QueryCall E) :=
  match embed query with
  | Except.error e => (Except.error e, [])
  | Except.ok query_embedding =>
    let call := semantic_call cfg query_embedding (top_k.getD 5)
    (Except.ok (query_and_catch store call), [call])

/-- `S3VectorRetriever.search_procedural`; the Python default `top_k` is 3. -/
def search_procedural {E R : Type} (embed : String → Except String E)
    (store : QueryCall E → Except String (List R)) (cfg : RetrieverConfig)
    (query : String) (top_k : Option Nat) :
    Except String (List R) × List (QueryCall E) :=
  match embed query with
  | Except.error e => (Except.error e, [])
  | Except.ok query_embedding =>
    let call := procedural_call cfg query_embedding (top_k.getD 3)
    (Except.ok (query_and_catch store call), [call])

/-- `S3VectorRetriever.search_with_filter`; the Python default `top_k` is 5. -/
def search_with_filter {E R : Type} (embed : String → Except String E)
    (store : QueryCall E → Except String (List R)) (cfg : RetrieverConfig)
    (query : String) (table_name : String) (top_k : Option Nat) :
    Except String (List R) × List (QueryCall E) :=
  match embed query with
  | Except.error e => (Except.error e, [])
  | Except.ok query_embedding =>
    let call := filtered_call cfg query_embedding table_name (top_k.getD 5)
    (Except.ok (query_and_catch store call), [call])

/-- `S3VectorRetriever.search_both`: `search_semantic` with
`semantic_k` (Python default 8), then `search_procedural` with
`procedural_k` (Python default 3); an exception in either sub-search
propagates. -/
def search_both {E R : Type} (embed : String → Except String E)
    (store : QueryCall E → Except String (List R)) (cfg : RetrieverConfig)
    (query : String) (semantic_k procedural_k : Option Nat) :
    Except String (List R × List R) × List (QueryCall E) :=
  match search_semantic embed store cfg query (some (semantic_k.getD 8)) with
  | (Except.error e, calls) => (Except.error e, calls)
  | (Except.ok semantic_results, calls) =>
    match search_procedural embed store cfg query (some (procedural_k.getD 3)) with
    | (Except.error e, calls2) => (Except.error e, calls ++ calls2)
    | (Except.ok procedural_results, calls2) =>
      (Except.ok (semantic_results, procedural_results), calls ++ calls2)

/-- What `_create_buckets` / `_create_indexes` log for each resource. -/
inductive ProvisionEvent where
  | bucketExists (bucket : String)
  | bucketCreated (bucket : String)
  | bucketCreateFailed (bucket : String)
  | indexExists (bucket idx : String)
  | indexCreated (bucket idx : String)
  | indexCreateFailed (bucket idx : String)
deriving Repr, DecidableEq

/-- `describe_vector_bucket`, with an oracle saying whether the remote call
succeeds (a failing call raises). -/
def describe_vector_bucket (ok : String → Bool) (bucket : String) :
    Except String Unit :=
  if ok bucket then Except.ok () else Except.error "describe failed"

/-- `create_vector_bucket`, with an oracle for success. -/
def create_vector_bucket (ok : String → Bool) (bucket : String) :
    Except String Unit :=
  if ok bucket then Except.ok () else Except.error "create failed"

/-- One iteration of the `_create_buckets` loop: the bare `except:` around
`describe_vector_bucket` falls through to `create_vector_bucket`, whose
`except Exception` arm only logs.  Every branch returns normally. -/
def ensure_bucket (describeOk createOk : String → Bool) (bucket : String) :
    ProvisionEvent :=
  match describe_vector_bucket describeOk bucket with
  | Except.ok _ => ProvisionEvent.bucketExists bucket
  | Except.error _ =>
    match create_vector_bucket createOk bucket with
    | Except.ok _ => ProvisionEvent.bucketCreated bucket
    | Except.error _ => ProvisionEvent.bucketCreateFailed bucket

/-- `S3VectorIngestion._create_buckets` over its three buckets. -/
def create_buckets (describeOk createOk : String → Bool)
    (cfg : IngestionConfig) : Except String (List ProvisionEvent) :=
  Except.ok ([cfg.semantic_bucket, cfg.procedural_bucket, cfg.episodic_bucket].map
    (ensure_bucket describeOk createOk))

/-- `describe_vector_index` with a success oracle over (bucket, index). -/
def describe_vector_index (ok : String → String → Bool) (bucket idx : String) :
    Except String Unit :=
  if ok bucket idx then Except.ok () else Except.error "describe failed"

/-- `create_vector_index` with a success oracle over (bucket, index). -/
def create_vector_index (ok : String → String → Bool) (bucket idx : String) :
    Except String Unit :=
  if ok bucket idx then Except.ok () else Except.error "create failed"

/-- One iteration of the `_create_indexes` loop, same shape as
`ensure_bucket`. -/
def ensure_index (describeOk createOk : String → String → Bool)
    (bucket idx : String) : ProvisionEvent :=
  match describe_vector_index describeOk bucket idx with
  | Except.ok _ => ProvisionEvent.indexExists bucket idx
  | Except.error _ =>
    match create_vector_index createOk bucket idx with
    | Except.ok _ => ProvisionEvent.indexCreated bucket idx
    | Except.error _ => ProvisionEvent.indexCreateFailed bucket idx

/-- `S3VectorIngestion._create_indexes` over its three (bucket, index)
pairs. -/
def create_indexes (describeOk createOk : String → String → Bool)
    (cfg : IngestionConfig) : Except String (List ProvisionEvent) :=
  Except.ok ([(cfg.semantic_bucket, "semantic_index"),
    (cfg.procedural_bucket, "procedural_index"),
    (cfg.episodic_bucket, "episodic_index")].map
    (fun p => ensure_index describeOk createOk p.1 p.2))

/-- The provisioning part of `S3VectorIngestion.__init__`:
`self._create_buckets()` then `self._create_indexes()`; an exception in
either would abort construction. -/
def ingestion_setup (describeBucketOk createBucketOk : String → Bool)
    (describeIndexOk createIndexOk : String → String → Bool)
    (cfg : IngestionConfig) : Except String (List ProvisionEvent) :=
  match create_buckets describeBucketOk createBucketOk cfg with
  | Except.error e => Except.error e
  | Except.ok bucket_events =>
    match create_indexes describeIndexOk createIndexOk cfg with
    | Except.error e => Except.error e
    | Except.ok index_events => Except.ok (bucket_events ++ index_events)

/-- A concrete retriever configuration (the bucket names of `main`). -/
def rcfg0 : RetrieverConfig :=
  ⟨"nl2sql-semantic-memory", "nl2sql-procedural-memory", "nl2sql-episodic-memory"⟩

/-- A concrete ingestion configuration (the bucket names of `main`). -/
def icfg0 : IngestionConfig :=
  ⟨"nl2sql-semantic-memory", "nl2sql-procedural-memory", "nl2sql-episodic-memory"⟩

/-- A concrete embedder that always succeeds. -/
def embedOk0 : String → Except String Unit := fun _ => Except.ok ()

/-- A concrete embedder whose remote call always raises. -/
def embedFail0 : String → Except String Unit := fun _ => Except.error "embedding failed"

/-- A concrete store that returns no matches. -/
def storeEmpty0 : QueryCall Unit → Except String (List Unit) := fun _ => Except.ok []

/-- A concrete store whose remote call always raises. -/
def storeFail0 : QueryCall Unit → Except String (List Unit) :=
  fun _ => Except.error "connection error"

/-- C1: `parse_chunk` routes a chunk to `'procedural'` iff its `entity_type`
field is present and equals `"query_example"`, and to `'semantic'` for every
other value; a chunk missing `chunk_id` gets key `"unknown"`, and a chunk
missing `entity_type` gets entity type `"unknown"` and goes to `'semantic'`. -/
theorem parse_chunk_routing (chunk : Chunk) (table_name : String) :
    ((parse_chunk chunk table_name).2.2.2 = "procedural" ↔
      chunk.entity_type = some "query_example")
    ∧ ((parse_chunk chunk table_name).2.2.2 = "semantic" ↔
      chunk.entity_type ≠ some "query_example")
    ∧ (chunk.chunk_id = none → (parse_chunk chunk table_name).1 = "unknown")
    ∧ (chunk.entity_type = none →
        (parse_chunk chunk table_name).2.2.1.entity_type = "unknown"
        ∧ (parse_chunk chunk table_name).2.2.2 = "semantic") := by
  have hpu : ("unknown" : String) ≠ "query_example" := by decide
  have hps : ("semantic" : String) ≠ "procedural" := by decide
  have hqp : ("procedural" : String) ≠ "semantic" := by decide
  refine ⟨?_, ?_, ?_, ?_⟩
  · cases h : chunk.entity_type with
    | none => simp [parse_chunk, h, hpu, hps]
    | some s =>
      by_cases hs : s = "query_example"
      · subst hs; simp [parse_chunk, h]
      · simp [parse_chunk, h, hs, hps]
  · cases h : chunk.entity_type with
    | none => simp [parse_chunk, h, hpu, hps]
    | some s =>
      by_cases hs : s = "query_example"
      · subst hs; simp [parse_chunk, h, hqp]
      · simp [parse_chunk, h, hs, hps, Option.some_inj]
  · intro h
    simp [parse_chunk, h]
  · intro h
    simp [parse_chunk, h, hpu]

/-- Witness for C1 at a concrete chunk with every optional field missing. -/
theorem parse_chunk_routing_witness :
    ((parse_chunk ⟨none, none, none, [], none⟩ "orders").2.2.2 = "procedural" ↔
      (Chunk.mk none none none [] none).entity_type = some "query_example")
    ∧ ((parse_chunk ⟨none, none, none, [], none⟩ "orders").2.2.2 = "semantic" ↔
      (Chunk.mk none none none [] none).entity_type ≠ some "query_example")
    ∧ ((Chunk.mk none none none [] none).chunk_id = none →
        (parse_chunk ⟨none, none, none, [], none⟩ "orders").1 = "unknown")
    ∧ ((Chunk.mk none none none [] none).entity_type = none →
        (parse_chunk ⟨none, none, none, [], none⟩ "orders").2.2.1.entity_type = "unknown"
        ∧ (parse_chunk ⟨none, none, none, [], none⟩ "orders").2.2.2 = "semantic") :=
  parse_chunk_routing ⟨none, none, none, [], none⟩ "orders"

lemma process_step_cases {E : Type} (emb : String → E) (table_name : String)
    (acc : List (VectorRecord E) × List (VectorRecord E)) (chunk : Chunk) :
    ∃ v, process_step emb table_name acc chunk = (acc.1 ++ [v], acc.2)
      ∨ process_step emb table_name acc chunk = (acc.1, acc.2 ++ [v]) := by
  unfold process_step
  rcases h : parse_chunk chunk table_name with ⟨chunk_id, text, metadata, memory_type⟩
  by_cases hm : memory_type = "semantic"
  · exact ⟨⟨chunk_id, emb text, metadata⟩, Or.inl (by simp [hm])⟩
  · exact ⟨⟨chunk_id, emb text, metadata⟩, Or.inr (by simp [hm])⟩

lemma process_fold_length {E : Type} (emb : String → E) (table_name : String) :
    ∀ (chunks : List Chunk) (acc : List (VectorRecord E) × List (VectorRecord E)),
      ((chunks.foldl (process_step emb table_name) acc).1.length
        + (chunks.foldl (process_step emb table_name) acc).2.length)
        = acc.1.length + acc.2.length + chunks.length := by
  intro chunks
  induction chunks with
  | nil => intro acc; simp
  | cons c cs ih =>
    intro acc
    rw [List.foldl_cons]
    rcases process_step_cases emb table_name acc c with ⟨v, h | h⟩ <;>
      rw [h, ih] <;> simp <;> omega

lemma process_file_length {E : Type} (emb : String → E) (doc : Document) :
    (process_file emb doc).1.length + (process_file emb doc).2.length
      = doc.chunks.length := by
  unfold process_file
  simpa using process_fold_length emb (doc.table.getD "unknown") doc.chunks ([], [])

lemma ingest_step_eq {E : Type} (emb : String → E)
    (acc : List (VectorRecord E) × List (VectorRecord E)) (doc : Document) :
    ingest_step emb acc doc
      = (acc.1 ++ (process_file emb doc).1, acc.2 ++ (process_file emb doc).2) := by
  unfold ingest_step
  rcases h : process_file emb doc with ⟨s, p⟩
  rfl

lemma collect_fold_length {E : Type} (emb : String → E) :
    ∀ (docs : List Document) (acc : List (VectorRecord E) × List (VectorRecord E)),
      ((docs.foldl (ingest_step emb) acc).1.length
        + (docs.foldl (ingest_step emb) acc).2.length)
        = acc.1.length + acc.2.length + (docs.map fun d => d.chunks.length).sum := by
  intro docs
  induction docs with
  | nil => intro acc; simp
  | cons d ds ih =>
    intro acc
    rw [List.foldl_cons, ingest_step_eq, ih]
    have := process_file_length emb d
    simp
    omega

lemma collect_vectors_length {E : Type} (emb : String → E) (docs : List Document) :
    (collect_vectors emb docs).1.length + (collect_vectors emb docs).2.length
      = (docs.map fun d => d.chunks.length).sum := by
  unfold collect_vectors
  simpa using collect_fold_length emb docs ([], [])

/-- C2: every chunk is appended to exactly one of the two partition lists
(each loop step extends exactly one of them by exactly one vector), the
counts reported by `ingest_all` are the lengths of the two accumulated lists,
and their sum is the total number of chunks processed. -/
theorem ingest_counts_partition {E : Type} (cfg : IngestionConfig)
    (emb : String → E) (sem_fails proc_fails : Nat → Bool)
    (docs : List Document) :
    (∀ (table_name : String) (acc : List (VectorRecord E) × List (VectorRecord E))
        (chunk : Chunk),
      ∃ v, process_step emb table_name acc chunk = (acc.1 ++ [v], acc.2)
        ∨ process_step emb table_name acc chunk = (acc.1, acc.2 ++ [v]))
    ∧ (ingest_all cfg emb sem_fails proc_fails docs).1.semantic_count
        = (collect_vectors emb docs).1.length
    ∧ (ingest_all cfg emb sem_fails proc_fails docs).1.procedural_count
        = (collect_vectors emb docs).2.length
    ∧ (ingest_all cfg emb sem_fails proc_fails docs).1.semantic_count
        + (ingest_all cfg emb sem_fails proc_fails docs).1.procedural_count
        = (docs.map fun d => d.chunks.length).sum := by
  refine ⟨fun tn acc chunk => process_step_cases emb tn acc chunk, ?_, ?_, ?_⟩
  · unfold ingest_all
    rcases h : collect_vectors emb docs with ⟨s, p⟩
    rfl
  · unfold ingest_all
    rcases h : collect_vectors emb docs with ⟨s, p⟩
    rfl
  · unfold ingest_all
    rcases h : collect_vectors emb docs with ⟨s, p⟩
    have := collect_vectors_length emb docs
    rw [h] at this
    simpa using this

lemma makeBatches_eq {E : Type} (v : List (VectorRecord E)) :
    makeBatches v
      = (List.range ((v.length + 99) / 100)).map
          (fun k => (v.drop (k * 100)).take 100) := by
  unfold makeBatches rangeStep batch_size
  rw [List.map_map]
  have h100 : v.length + 100 - 1 = v.length + 99 := by omega
  rw [h100]
  rfl

lemma range_map_flatten_take {α : Type} (v : List α) :
    ∀ K : Nat,
      ((List.range K).map (fun k => (v.drop (k * 100)).take 100)).flatten
        = v.take (K * 100) := by
  intro K
  induction K with
  | zero => simp
  | succ n ih =>
    rw [List.range_succ, List.map_append, List.flatten_append, ih]
    have : (n + 1) * 100 = n * 100 + 100 := by ring
    rw [this, List.take_add]
    simp

lemma map_range_getLast? {α : Type} (f : Nat → α) (n : Nat) :
    ((List.range (n + 1)).map f).getLast? = some (f n) := by
  rw [List.range_succ, List.map_append]
  simp

lemma upload_fold {E : Type} (bucket index_name : String) (fails : Nat → Bool) :
    ∀ (l : List (Nat × List (VectorRecord E))) (acc : List (PutCall E) × Nat),
      l.foldl (upload_step bucket index_name fails) acc
        = (acc.1 ++ l.map (fun kb => ⟨bucket, index_name, kb.2⟩),
            acc.2 + ((l.filter (fun kb => !(fails kb.1))).map
              (fun kb => kb.2.length)).sum) := by
  intro l
  induction l with
  | nil => intro acc; simp
  | cons kb t ih =>
    intro acc
    rw [List.foldl_cons]
    by_cases hf : fails kb.1 <;>
      simp [upload_step, hf, ih, List.append_assoc] <;> omega

lemma enum_map_snd_comp {α β : Type} (l : List α) (g : α → β) :
    l.enum.map (fun kb => g kb.2) = l.map g := by
  have : (fun kb : Nat × α => g kb.2) = g ∘ Prod.snd := rfl
  rw [this, ← List.map_map, List.enum_map_snd]

lemma upload_vectors_calls {E : Type} (fails : Nat → Bool)
    (vectors : List (VectorRecord E)) (bucket index_name : String) :
    (upload_vectors fails vectors bucket index_name).1
      = (makeBatches vectors).map (fun batch => ⟨bucket, index_name, batch⟩) := by
  unfold upload_vectors
  by_cases hv : vectors.isEmpty
  · rw [List.isEmpty_iff] at hv
    subst hv
    simp [makeBatches, rangeStep, batch_size]
  · simp only [hv, if_false, Bool.false_eq_true]
    rw [upload_fold]
    simp [enum_map_snd_comp]

lemma upload_vectors_total {E : Type} (fails : Nat → Bool)
    (vectors : List (VectorRecord E)) (bucket index_name : String) :
    (upload_vectors fails vectors bucket index_name).2
      = (((makeBatches vectors).enum.filter (fun kb => !(fails kb.1))).map
          (fun kb => kb.2.length)).sum := by
  unfold upload_vectors
  by_cases hv : vectors.isEmpty
  · rw [List.isEmpty_iff] at hv
    subst hv
    simp [makeBatches, rangeStep, batch_size]
  · simp only [hv, if_false, Bool.false_eq_true]
    rw [upload_fold]
    simp

/-- C3: on a non-empty vector list of length `N`, `upload_vectors` issues
exactly `⌈N/100⌉ = (N + 99) / 100` `put_vectors` calls, in list order; every
call carries at most 100 records, the concatenation of the carried batches is
the input list, and the last call carries `N mod 100` records (or 100 when
`N` is a multiple of 100). -/
theorem upload_batching {E : Type} (fails : Nat → Bool)
    (vectors : List (VectorRecord E)) (bucket index_name : String)
    (hv : vectors ≠ []) :
    (upload_vectors fails vectors bucket index_name).1.length
        = (vectors.length + 99) / 100
    ∧ (∀ c ∈ (upload_vectors fails vectors bucket index_name).1,
        c.vectors.length ≤ 100)
    ∧ ((upload_vectors fails vectors bucket index_name).1.map
        (fun c => c.vectors)).flatten = vectors
    ∧ ((upload_vectors fails vectors bucket index_name).1.map
        (fun c => c.vectors.length)).getLast?
        = some (if vectors.length % 100 = 0 then 100 else vectors.length % 100) := by
  refine ⟨?_, ?_, ?_, ?_⟩
  · rw [upload_vectors_calls, makeBatches_eq]
    simp
  · intro c hc
    rw [upload_vectors_calls, makeBatches_eq] at hc
    simp only [List.map_map, List.mem_map, List.mem_range] at hc
    obtain ⟨k, _, hk⟩ := hc
    rw [← hk]
    simpa using List.length_take_le ..
  · rw [upload_vectors_calls, List.map_map]
    have hmap : ((fun c : PutCall E => c.vectors)
        ∘ (fun batch => (⟨bucket, index_name, batch⟩ : PutCall E)))
        = fun batch => batch := rfl
    rw [hmap, makeBatches_eq]
    have hjoin := range_map_flatten_take vectors ((vectors.length + 99) / 100)
    have hid : (List.map (fun batch => batch)
        ((List.range ((vectors.length + 99) / 100)).map
          (fun k => (vectors.drop (k * 100)).take 100)))
        = (List.range ((vectors.length + 99) / 100)).map
          (fun k => (vectors.drop (k * 100)).take 100) := List.map_id' ..
    rw [hid, hjoin]
    exact List.take_of_length_le (by omega)
  · rw [upload_vectors_calls, List.map_map, makeBatches_eq, List.map_map]
    have hlen : vectors.length ≠ 0 := fun h => hv (List.eq_nil_of_length_eq_zero h)
    obtain ⟨m, hm⟩ : ∃ m, (vectors.length + 99) / 100 = m + 1 :=
      ⟨(vectors.length + 99) / 100 - 1, by omega⟩
    rw [hm, map_range_getLast?]
    have : (((vectors.drop (m * 100)).take 100).length)
        = if vectors.length % 100 = 0 then 100 else vectors.length % 100 := by
      rw [List.length_take, List.length_drop]
      by_cases h100 : vectors.length % 100 = 0 <;> simp only [h100, if_true, if_false] <;> omega
    simpa using this

/-- Witness for C3 on a concrete two-record list. -/
theorem upload_batching_witness :
    (upload_vectors (fun _ => false)
        [(⟨"c1", (), ⟨"customers", "column", "", none⟩⟩ : VectorRecord Unit),
          ⟨"q1", (), ⟨"customers", "query_example", "", none⟩⟩]
        "nl2sql-semantic-memory" "semantic_index").1.length
        = (([(⟨"c1", (), ⟨"customers", "column", "", none⟩⟩ : VectorRecord Unit),
            ⟨"q1", (), ⟨"customers", "query_example", "", none⟩⟩] :
            List (VectorRecord Unit)).length + 99) / 100
    ∧ (∀ c ∈ (upload_vectors (fun _ => false)
        [(⟨"c1", (), ⟨"customers", "column", "", none⟩⟩ : VectorRecord Unit),
          ⟨"q1", (), ⟨"customers", "query_example", "", none⟩⟩]
        "nl2sql-semantic-memory" "semantic_index").1,
        c.vectors.length ≤ 100)
    ∧ ((upload_vectors (fun _ => false)
        [(⟨"c1", (), ⟨"customers", "column", "", none⟩⟩ : VectorRecord Unit),
          ⟨"q1", (), ⟨"customers", "query_example", "", none⟩⟩]
        "nl2sql-semantic-memory" "semantic_index").1.map
        (fun c => c.vectors)).flatten
        = [(⟨"c1", (), ⟨"customers", "column", "", none⟩⟩ : VectorRecord Unit),
            ⟨"q1", (), ⟨"customers", "query_example", "", none⟩⟩]
    ∧ ((upload_vectors (fun _ => false)
        [(⟨"c1", (), ⟨"customers", "column", "", none⟩⟩ : VectorRecord Unit),
          ⟨"q1", (), ⟨"customers", "query_example", "", none⟩⟩]
        "nl2sql-semantic-memory" "semantic_index").1.map
        (fun c => c.vectors.length)).getLast?
        = some (if ([(⟨"c1", (), ⟨"customers", "column", "", none⟩⟩ : VectorRecord Unit),
            ⟨"q1", (), ⟨"customers", "query_example", "", none⟩⟩] :
            List (VectorRecord Unit)).length % 100 = 0 then 100
          else ([(⟨"c1", (), ⟨"customers", "column", "", none⟩⟩ : VectorRecord Unit),
            ⟨"q1", (), ⟨"customers", "query_example", "", none⟩⟩] :
            List (VectorRecord Unit)).length % 100) :=
  upload_batching (fun _ => false)
    [⟨"c1", (), ⟨"customers", "column", "", none⟩⟩,
      ⟨"q1", (), ⟨"customers", "query_example", "", none⟩⟩]
    "nl2sql-semantic-memory" "semantic_index" (by simp)

/-- C4: a failing `put_vectors` call does not stop `upload_vectors`: every
batch is attempted exactly once, in order, whatever the failure oracle says
(no retry, no abort, no rollback), and the logged `total_uploaded` is the sum
of the sizes of the successful batches only. -/
theorem upload_failure_isolation {E : Type} (fails : Nat → Bool)
    (vectors : List (VectorRecord E)) (bucket index_name : String) :
    (upload_vectors fails vectors bucket index_name).1
        = (makeBatches vectors).map (fun batch => ⟨bucket, index_name, batch⟩)
    ∧ (upload_vectors fails vectors bucket index_name).2
        = (((makeBatches vectors).enum.filter (fun kb => !(fails kb.1))).map
            (fun kb => kb.2.length)).sum :=
  ⟨upload_vectors_calls fails vectors bucket index_name,
    upload_vectors_total fails vectors bucket index_name⟩

/-- C5 counterexample: on a non-existent data directory, `load_json_files`
does NOT raise a not-found error — `pathlib.Path.glob` yields nothing for a
missing directory, so the call returns the empty list normally. -/
theorem load_json_files_missing_dir_returns_empty :
    load_json_files (none : Option (List (String × Document))) = Except.ok [] := rfl

/-- C5 (amended): `load_json_files` never raises; it returns the empty list
both when the data directory does not exist and when the directory exists
but contains no file with a `semantic_` prefix and `.json` suffix. -/
theorem load_json_files_no_raise (dir : Option (List (String × Document))) :
    (∃ files, load_json_files dir = Except.ok files)
    ∧ (dir = none → load_json_files dir = Except.ok [])
    ∧ (∀ entries, dir = some entries →
        entries.filter (fun e => fileNameMatch e.1) = [] →
        load_json_files dir = Except.ok []) := by
  refine ⟨⟨globSemanticJson dir, rfl⟩, ?_, ?_⟩
  · intro h
    subst h
    rfl
  · intro entries h hf
    subst h
    simp [load_json_files, globSemanticJson, hf]

/-- Witness for C5 (amended) on a directory holding one non-matching file. -/
theorem load_json_files_no_raise_witness :
    (∃ files, load_json_files (some [("readme.md", ⟨some "customers", []⟩)])
      = Except.ok files)
    ∧ ((some [("readme.md", (⟨some "customers", []⟩ : Document))]
          : Option (List (String × Document))) = none →
        load_json_files (some [("readme.md", ⟨some "customers", []⟩)]) = Except.ok [])
    ∧ (∀ entries,
        (some [("readme.md", (⟨some "customers", []⟩ : Document))]
          : Option (List (String × Document))) = some entries →
        entries.filter (fun e => fileNameMatch e.1) = [] →
        load_json_files (some [("readme.md", ⟨some "customers", []⟩)]) = Except.ok []) :=
  load_json_files_no_raise (some [("readme.md", ⟨some "customers", []⟩)])

/-- C6 counterexample: a failing embedding call is outside the `try` block of
`search_semantic`, so the failure propagates to the caller instead of being
caught and turned into an empty result. -/
theorem search_raises_on_embed_failure :
    (search_semantic embedFail0 storeEmpty0 rcfg0 "customers in California" none).1
      = Except.error "embedding failed" := rfl

/-- C6 (amended): whenever the query-embedding call succeeds, none of the
four search operations raises; any `query_vectors` failure, with any error,
hits the shared caught branch and produces the empty list, so under a
failing store all four operations return empty results (`search_both` the
pair of empty lists) — but a failure of the embedding call itself
propagates. -/
theorem search_error_handling {E R : Type} (embed : String → Except String E)
    (store : QueryCall E → Except String (List R)) (cfg : RetrieverConfig)
    (query table_name : String) (top_k semantic_k procedural_k : Option Nat)
    (e : E) (hq : embed query = Except.ok e) :
    (∃ l, (search_semantic embed store cfg query top_k).1 = Except.ok l)
    ∧ (∃ l, (search_procedural embed store cfg query top_k).1 = Except.ok l)
    ∧ (∃ l, (search_with_filter embed store cfg query table_name top_k).1
        = Except.ok l)
    ∧ (∃ lp, (search_both embed store cfg query semantic_k procedural_k).1
        = Except.ok lp)
    ∧ (∀ call m, store call = Except.error m → query_and_catch store call = [])
    ∧ ((∀ c, ∃ m, store c = Except.error m) →
        (search_semantic embed store cfg query top_k).1 = Except.ok []
        ∧ (search_procedural embed store cfg query top_k).1 = Except.ok []
        ∧ (search_with_filter embed store cfg query table_name top_k).1
          = Except.ok []
        ∧ (search_both embed store cfg query semantic_k procedural_k).1
          = Except.ok ([], [])) := by
  refine ⟨?_, ?_, ?_, ?_, ?_, ?_⟩
  · exact ⟨query_and_catch store (semantic_call cfg e (top_k.getD 5)),
      by simp [search_semantic, hq]⟩
  · exact ⟨query_and_catch store (procedural_call cfg e (top_k.getD 3)),
      by simp [search_procedural, hq]⟩
  · exact ⟨query_and_catch store (filtered_call cfg e table_name (top_k.getD 5)),
      by simp [search_with_filter, hq]⟩
  · exact ⟨(query_and_catch store (semantic_call cfg e (semantic_k.getD 8)),
        query_and_catch store (procedural_call cfg e (procedural_k.getD 3))),
      by simp [search_both, search_semantic, search_procedural, hq]⟩
  · intro call m hm
    simp [query_and_catch, hm]
  · intro hstore
    refine ⟨?_, ?_, ?_, ?_⟩
    · obtain ⟨m, hm⟩ := hstore (semantic_call cfg e (top_k.getD 5))
      simp [search_semantic, hq, query_and_catch, hm]
    · obtain ⟨m, hm⟩ := hstore (procedural_call cfg e (top_k.getD 3))
      simp [search_procedural, hq, query_and_catch, hm]
    · obtain ⟨m, hm⟩ := hstore (filtered_call cfg e table_name (top_k.getD 5))
      simp [search_with_filter, hq, query_and_catch, hm]
    · obtain ⟨m1, hm1⟩ := hstore (semantic_call cfg e (semantic_k.getD 8))
      obtain ⟨m2, hm2⟩ := hstore (procedural_call cfg e (procedural_k.getD 3))
      simp [search_both, search_semantic, search_procedural, hq,
        query_and_catch, hm1, hm2]

/-- Witness for C6 (amended): concrete query against stores that always
fail. -/
theorem search_error_handling_witness :
    (∃ l, (search_semantic embedOk0 storeFail0 rcfg0 "customers in California" none).1
      = Except.ok l)
    ∧ (∃ l, (search_procedural embedOk0 storeFail0 rcfg0 "customers in California" none).1
      = Except.ok l)
    ∧ (∃ l, (search_with_filter embedOk0 storeFail0 rcfg0 "customers in California"
        "customers" none).1 = Except.ok l)
    ∧ (∃ lp, (search_both embedOk0 storeFail0 rcfg0 "customers in California"
        none none).1 = Except.ok lp)
    ∧ (∀ call m, storeFail0 call = Except.error m →
        query_and_catch storeFail0 call = [])
    ∧ ((∀ c, ∃ m, storeFail0 c = Except.error m) →
        (search_semantic embedOk0 storeFail0 rcfg0 "customers in California" none).1
          = Except.ok []
        ∧ (search_procedural embedOk0 storeFail0 rcfg0 "customers in California" none).1
          = Except.ok []
        ∧ (search_with_filter embedOk0 storeFail0 rcfg0 "customers in California"
            "customers" none).1 = Except.ok []
        ∧ (search_both embedOk0 storeFail0 rcfg0 "customers in California" none none).1
          = Except.ok ([], [])) :=
  search_error_handling embedOk0 storeFail0 rcfg0 "customers in California"
    "customers" none none none () rfl

/-- C7 counterexample: when the caller supplies no `top_k`, the
`query_vectors` request issued by `search_semantic` carries `topK = 5`
(the Python default of `search_semantic`), not 8. -/
theorem search_semantic_default_topk_is_five :
    ((search_semantic embedOk0 storeEmpty0 rcfg0 "customers in California" none).2.map
      (fun c => c.topK)) = [5]
    ∧ ((search_semantic embedOk0 storeEmpty0 rcfg0 "customers in California" none).2.map
      (fun c => c.topK)) ≠ [8] := by
  constructor
  · rfl
  · decide

/-- C7 (amended): with `top_k` unsupplied, `search_semantic` and
`search_with_filter` issue their query with `topK = 5`, `search_procedural`
with `topK = 3`; `search_both` with its own defaults unsupplied passes
`semantic_k = 8` and `procedural_k = 3` down, issuing `topK = 8` then
`topK = 3`. -/
theorem search_default_topk {E R : Type} (embed : String → Except String E)
    (store : QueryCall E → Except String (List R)) (cfg : RetrieverConfig)
    (query table_name : String) (e : E) (hq : embed query = Except.ok e) :
    ((search_semantic embed store cfg query none).2.map (fun c => c.topK)) = [5]
    ∧ ((search_procedural embed store cfg query none).2.map (fun c => c.topK)) = [3]
    ∧ ((search_with_filter embed store cfg query table_name none).2.map
        (fun c => c.topK)) = [5]
    ∧ ((search_both embed store cfg query none none).2.map (fun c => c.topK)) = [8, 3] := by
  refine ⟨?_, ?_, ?_, ?_⟩
  · simp [search_semantic, hq, semantic_call]
  · simp [search_procedural, hq, procedural_call]
  · simp [search_with_filter, hq, filtered_call]
  · simp [search_both, search_semantic, search_procedural, hq,
      semantic_call, procedural_call]

/-- Witness for C7 (amended) at a concrete embedder and store. -/
theorem search_default_topk_witness :
    ((search_semantic embedOk0 storeEmpty0 rcfg0 "customers in California" none).2.map
      (fun c => c.topK)) = [5]
    ∧ ((search_procedural embedOk0 storeEmpty0 rcfg0 "customers in California" none).2.map
      (fun c => c.topK)) = [3]
    ∧ ((search_with_filter embedOk0 storeEmpty0 rcfg0 "customers in California"
        "customers" none).2.map (fun c => c.topK)) = [5]
    ∧ ((search_both embedOk0 storeEmpty0 rcfg0 "customers in California"
        none none).2.map (fun c => c.topK)) = [8, 3] :=
  search_default_topk embedOk0 storeEmpty0 rcfg0 "customers in California"
    "customers" () rfl

/-- C8: every provisioning failure is swallowed: for every outcome of the
remote describe/create calls, `__init__`'s provisioning phase returns
normally with one logged event per bucket and per index, all six resources
are attempted, and a doubly-failing resource only yields a logged
`CreateFailed` event. -/
theorem provisioning_failures_swallowed (describeBucketOk createBucketOk : String → Bool)
    (describeIndexOk createIndexOk : String → String → Bool) (cfg : IngestionConfig) :
    ingestion_setup describeBucketOk createBucketOk describeIndexOk createIndexOk cfg
      = Except.ok
        [ensure_bucket describeBucketOk createBucketOk cfg.semantic_bucket,
          ensure_bucket describeBucketOk createBucketOk cfg.procedural_bucket,
          ensure_bucket describeBucketOk createBucketOk cfg.episodic_bucket,
          ensure_index describeIndexOk createIndexOk cfg.semantic_bucket "semantic_index",
          ensure_index describeIndexOk createIndexOk cfg.procedural_bucket "procedural_index",
          ensure_index describeIndexOk createIndexOk cfg.episodic_bucket "episodic_index"]
    ∧ (∀ bucket, describeBucketOk bucket = false → createBucketOk bucket = false →
        ensure_bucket describeBucketOk createBucketOk bucket
          = ProvisionEvent.bucketCreateFailed bucket)
    ∧ (∀ bucket idx, describeIndexOk bucket idx = false →
        createIndexOk bucket idx = false →
        ensure_index describeIndexOk createIndexOk bucket idx
          = ProvisionEvent.indexCreateFailed bucket idx) := by
  refine ⟨rfl, ?_, ?_⟩
  · intro bucket h1 h2
    simp [ensure_bucket, describe_vector_bucket, create_vector_bucket, h1, h2]
  · intro bucket idx h1 h2
    simp [ensure_index, describe_vector_index, create_vector_index, h1, h2]

/-- Witness for C8 with every remote provisioning call failing. -/
theorem provisioning_failures_swallowed_witness :
    ingestion_setup (fun _ => false) (fun _ => false) (fun _ _ => false)
        (fun _ _ => false) icfg0
      = Except.ok
        [ensure_bucket (fun _ => false) (fun _ => false) icfg0.semantic_bucket,
          ensure_bucket (fun _ => false) (fun _ => false) icfg0.procedural_bucket,
          ensure_bucket (fun _ => false) (fun _ => false) icfg0.episodic_bucket,
          ensure_index (fun _ _ => false) (fun _ _ => false) icfg0.semantic_bucket
            "semantic_index",
          ensure_index (fun _ _ => false) (fun _ _ => false) icfg0.procedural_bucket
            "procedural_index",
          ensure_index (fun _ _ => false) (fun _ _ => false) icfg0.episodic_bucket
            "episodic_index"]
    ∧ (∀ bucket, (fun (_ : String) => false) bucket = false →
        (fun (_ : String) => false) bucket = false →
        ensure_bucket (fun _ => false) (fun _ => false) bucket
          = ProvisionEvent.bucketCreateFailed bucket)
    ∧ (∀ bucket idx, (fun (_ _ : String) => false) bucket idx = false →
        (fun (_ _ : String) => false) bucket idx = false →
        ensure_index (fun _ _ => false) (fun _ _ => false) bucket idx
          = ProvisionEvent.indexCreateFailed bucket idx) :=
  provisioning_failures_swallowed (fun _ => false) (fun _ => false)
    (fun _ _ => false) (fun _ _ => false) icfg0

/-- C9: every `query_vectors` request issued by `search_with_filter` goes to
the semantic bucket's `semantic_index` (never the procedural or episodic
index) and carries the `table_name` metadata filter. -/
theorem search_with_filter_semantic_only {E R : Type}
    (embed : String → Except String E)
    (store : QueryCall E → Except String (List R)) (cfg : RetrieverConfig)
    (query table_name : String) (top_k : Option Nat) (c : QueryCall E)
    (hc : c ∈ (search_with_filter embed store cfg query table_name top_k).2) :
    c.vectorBucketName = cfg.semantic_bucket
    ∧ c.indexName = "semantic_index"
    ∧ c.indexName ≠ "procedural_index"
    ∧ c.indexName ≠ "episodic_index"
    ∧ c.filter = some ("table_name", table_name) := by
  unfold search_with_filter at hc
  cases h : embed query with
  | error e =>
    rw [h] at hc
    simp at hc
  | ok query_embedding =>
    rw [h] at hc
    simp at hc
    subst hc
    have h1 : ("semantic_index" : String) ≠ "procedural_index" := by decide
    have h2 : ("semantic_index" : String) ≠ "episodic_index" := by decide
    exact ⟨rfl, rfl, h1, h2, rfl⟩

/-- Witness for C9 at a concrete filtered search. -/
theorem search_with_filter_semantic_only_witness :
    (filtered_call rcfg0 () "customers" 5).vectorBucketName = rcfg0.semantic_bucket
    ∧ (filtered_call rcfg0 () "customers" 5).indexName = "semantic_index"
    ∧ (filtered_call rcfg0 () "customers" 5).indexName ≠ "procedural_index"
    ∧ (filtered_call rcfg0 () "customers" 5).indexName ≠ "episodic_index"
    ∧ (filtered_call rcfg0 () "customers" 5).filter = some ("table_name", "customers") :=
  search_with_filter_semantic_only embedOk0 storeEmpty0 rcfg0
    "customers in California" "customers" none (filtered_call rcfg0 () "customers" 5)
    (by simp [search_with_filter, embedOk0])

/-- C10: `upload_vectors` on an empty list issues no `put_vectors` call and
logs a zero total, and an ingestion run over a directory with no matching
files performs no remote write and reports `semantic_count = 0` and
`procedural_count = 0`. -/
theorem empty_ingestion_no_writes {E : Type} (cfg : IngestionConfig)
    (emb : String → E) (sem_fails proc_fails fails : Nat → Bool)
    (bucket index_name : String) (dir : Option (List (String × Document)))
    (hdir : globSemanticJson dir = []) :
    upload_vectors fails ([] : List (VectorRecord E)) bucket index_name = ([], 0)
    ∧ ingest_pipeline cfg emb sem_fails proc_fails dir
      = Except.ok ((⟨0, 0, cfg.semantic_bucket, cfg.procedural_bucket⟩ : IngestResult),
          ([] : List (PutCall E))) := by
  constructor
  · rfl
  · unfold ingest_pipeline load_json_files
    rw [hdir]
    rfl

/-- Witness for C10 on a directory holding only a non-matching file. -/
theorem empty_ingestion_no_writes_witness :
    upload_vectors (fun _ => false) ([] : List (VectorRecord Unit))
        "nl2sql-semantic-memory" "semantic_index" = ([], 0)
    ∧ ingest_pipeline icfg0 (fun _ => ()) (fun _ => false) (fun _ => false)
        (some [("readme.md", ⟨some "customers", []⟩)])
      = Except.ok ((⟨0, 0, icfg0.semantic_bucket, icfg0.procedural_bucket⟩ : IngestResult),
          ([] : List (PutCall Unit))) :=
  empty_ingestion_no_writes icfg0 (fun _ => ()) (fun _ => false) (fun _ => false)
    (fun _ => false) "nl2sql-semantic-memory" "semantic_index"
    (some [("readme.md", ⟨some "customers", []⟩)]) (by decide)

end S3Ingestion
